import Mathlib

/-!
Shallow embedding of the iterative quality-gated refinement loops and
production pipelines of the `fac-ws_ai_multi-agent` workshop repository.

Each namespace embeds one Python source file:
* `P05`   — `patterns/05_evaluator_optimiser.py`
* `PS05`  — `patterns_simple/05_evaluator_optimiser.py`
* `S02`   — `simple/02_conditional_workflow.py`
* `S05`   — `solution/05_evaluator_optimiser.py`
* `Sol07` — `solutions/07_production_ready_solution.py`
* `P07`   — `patterns/07_production_ready.py`
* `P06`   — `patterns/06_production_ready.py`

LLM calls (`llm.invoke`, structured output) are external collaborators and
are passed in as function parameters; everything else is translated from
the source.  Python dict `.get(key, default)` reads are modelled with
`Option` fields and `Option.getD`; Python `int` scores are `Int`.
-/

namespace P05

/-- Structured output of the evaluator LLM call, `class Evaluation` in
`patterns/05_evaluator_optimiser.py` (score 1-10, feedback, continue flag). -/
structure Evaluation where
  score : Int
  feedback : String
  should_continue : Bool
deriving DecidableEq, Repr

/-- The `current_evaluation` dict stored in `OptimisationState`: keys may be
absent, and `should_continue_optimisation` reads them with `.get` defaults. -/
structure EvalDict where
  score : Option Int
  feedback : Option String
  should_continue : Option Bool
deriving DecidableEq, Repr

/-- Routing outcome of the conditional edge after the evaluator node. -/
inductive Route where
  | optimise
  | finalise
deriving DecidableEq, Repr

/-- `should_continue_optimisation` of `patterns/05_evaluator_optimiser.py`:
`state.get("current_evaluation", {})`, `state.get("iteration_count", 0)`;
finalise when `iteration_count >= 3`, when `not current_eval.get("should_continue", True)`,
or when `current_eval.get("score", 0) >= 8`; otherwise optimise. -/
def should_continue_optimisation (current_evaluation : Option EvalDict)
    (iteration_count : Nat) : Route :=
  let ce := current_evaluation.getD ⟨none, none, none⟩
  if 3 ≤ iteration_count then .finalise
  else if !(ce.should_continue.getD true) then .finalise
  else if 8 ≤ ce.score.getD 0 then .finalise
  else .optimise

/-- Which of the three finalising branches of `should_continue_optimisation`
fired, in the source's check order.  The spec names these
`MaxIterationsReached`, `EvaluatorSignaledStop`, `QualityThresholdMet`. -/
inductive Reason where
  | maxIterationsReached
  | evaluatorSignaledStop
  | qualityThresholdMet
  | outOfFuel
deriving DecidableEq, Repr

/-- The finalising branch of `should_continue_optimisation` that fires for a
fully-populated evaluation at the given iteration count (same check order
as the source: iteration cap, then stop flag, then score threshold). -/
def terminationReason (e : Evaluation) (iteration_count : Nat) : Reason :=
  if 3 ≤ iteration_count then .maxIterationsReached
  else if !e.should_continue then .evaluatorSignaledStop
  else .qualityThresholdMet

/-- A completed run of the compiled workflow: the trace of evaluator passes
(`(iteration_count, evaluation)` per pass), the finalised code, the final
iteration count, and which gate branch terminated the loop. -/
structure RunResult where
  history : List (Nat × Evaluation)
  finalCode : String
  iterationCount : Nat
  reason : Reason
deriving Repr

/-- The `evaluator → (optimiser → evaluator)*` cycle of the compiled graph in
`patterns/05_evaluator_optimiser.py`.  `evalFn` is the evaluator LLM call
(`evaluator_agent`), `optFn` the optimiser LLM call (`optimiser_agent`, which
also increments `iteration_count`).  Fuel-indexed; `run` supplies enough fuel
(the gate finalises as soon as `iteration_count` reaches 3). -/
def loop (evalFn : String → Evaluation) (optFn : String → String → String) :
    Nat → String → Nat → List (Nat × Evaluation) → RunResult
  | 0, code, iter, hist => ⟨hist, code, iter, .outOfFuel⟩
  | fuel + 1, code, iter, hist =>
    let e := evalFn code
    let hist' := hist ++ [(iter, e)]
    match should_continue_optimisation
        (some ⟨some e.score, some e.feedback, some e.should_continue⟩) iter with
    | .finalise => ⟨hist', code, iter, terminationReason e iter⟩
    | .optimise => loop evalFn optFn fuel (optFn code e.feedback) (iter + 1) hist'

/-- Full run of the `patterns/05` workflow: `generator` produces the initial
code (`gen0`, the LLM response with no prior feedback and
`iteration_count = 0`), then the evaluate/decide/optimise cycle. -/
def run (evalFn : String → Evaluation) (optFn : String → String → String)
    (gen0 : String) : RunResult :=
  loop evalFn optFn 4 gen0 0 []

end P05

namespace S02

/-- Routing outcome of the quality gate in `simple/02_conditional_workflow.py`. -/
inductive GateRoute where
  | improve
  | done
deriving DecidableEq, Repr

/-- `quality_gate` of `simple/02_conditional_workflow.py`:
`"done" if state["score"] >= 7 else "improve"`. -/
def quality_gate (score : Int) : GateRoute :=
  if 7 ≤ score then .done else .improve

end S02

namespace PyStr

/-- Python `str.strip()` on a character list: drop whitespace from both ends.
Structural (kernel-reducible) replacement for `String.trim`'s `Substring`
machinery. -/
def pyStrip (cs : List Char) : List Char :=
  ((cs.dropWhile Char.isWhitespace).reverse.dropWhile Char.isWhitespace).reverse

/-- Python `str.strip()` on a string. -/
def strip (s : String) : String :=
  String.mk (pyStrip s.toList)

/-- Python `sub in s` substring membership on character lists. -/
def containsSub (needle : List Char) : List Char → Bool
  | [] => needle.isEmpty
  | c :: rest => needle.isPrefixOf (c :: rest) || containsSub needle rest

/-- Digit run of a Python integer literal body: non-empty, starts and ends
with a digit, underscores only singly and between digits (Python `int`
accepts `"1_2"` but rejects `"_1"`, `"1_"`, `"1__2"`). -/
def validDigits : List Char → Bool
  | [] => false
  | [c] => c.isDigit
  | c :: d :: rest =>
    if c.isDigit then validDigits (d :: rest)
    else if c = '_' then d.isDigit && validDigits (d :: rest)
    else false

/-- Numeric value of a digit-and-underscore run (underscores skipped). -/
def digitsVal (cs : List Char) : Nat :=
  cs.foldl (fun acc c => if c.isDigit then acc * 10 + (c.toNat - '0'.toNat) else acc) 0

/-- Model of Python `int(s)` on a string: strip surrounding whitespace, parse
an optional sign followed by a valid digit run; `none` models the
`ValueError` raised on any other input. -/
def pyInt (s : String) : Option Int :=
  let cs := PyStr.pyStrip s.toList
  match cs with
  | '+' :: rest => if validDigits rest then some (digitsVal rest) else none
  | '-' :: rest => if validDigits rest then some (-(digitsVal rest : Int)) else none
  | rest =>
    if rest.isEmpty then none
    else if validDigits rest && (rest.headD '0').isDigit then some (digitsVal rest)
    else none

end PyStr

namespace PS05

/-- Routing outcome of `should_continue` in
`patterns_simple/05_evaluator_optimiser.py`. -/
inductive Route where
  | optimise
  | done
deriving DecidableEq, Repr

/-- `evaluator` of `patterns_simple/05_evaluator_optimiser.py`:
`int(response.content.strip())`, and `score = 5` when that raises
(the bare `except:` catches the `ValueError`). -/
def evaluator (content : String) : Int :=
  (PyStr.pyInt (PyStr.strip content)).getD 5

/-- `should_continue` of `patterns_simple/05_evaluator_optimiser.py`:
done when `state.get("iterations", 0) >= 2` or `state.get("score", 0) >= 8`. -/
def should_continue (iterations : Nat) (score : Option Int) : Route :=
  if 2 ≤ iterations then .done
  else if 8 ≤ score.getD 0 then .done
  else .optimise

end PS05

namespace S02

/-- `evaluator` of `simple/02_conditional_workflow.py`: identical fallback
logic to `patterns_simple/05` — `int(response.content.strip())`, score 5 on
parse failure. -/
def evaluator (content : String) : Int :=
  (PyStr.pyInt (PyStr.strip content)).getD 5

end S02

namespace S05

/-- First index at or after which the characters `` ``` `` occur in the list,
scanning left to right (the leftmost match position of the regex search in
`extract_code_from_response` of `solution/05_evaluator_optimiser.py`). -/
def findTicks : List Char → Option Nat
  | [] => none
  | c :: rest =>
    match c, rest with
    | '`', '`' :: '`' :: _ => some 0
    | _, _ => (findTicks rest).map (· + 1)

/-- `extract_code_from_response` of `solution/05_evaluator_optimiser.py`:
`re.search` for the pattern "triple backticks, optional `python`, lazily
captured body, triple backticks" (DOTALL), returning `match.group(1).strip()`
on a match and `response_text.strip()` otherwise.  The leftmost-lazy match
captures everything between the first opening fence (after an optional
immediate `python` tag) and the next closing fence; the `\s*` paddings of the
pattern are subsumed by the outer `.strip()`. -/
def extract_code_from_response (response_text : String) : String :=
  if response_text = "" then ""
  else
    let cs := response_text.toList
    match findTicks cs with
    | none => PyStr.strip response_text
    | some i =>
      let afterOpen := cs.drop (i + 3)
      let body := if "python".toList.isPrefixOf afterOpen
                  then afterOpen.drop 6 else afterOpen
      match findTicks body with
      | none => PyStr.strip response_text
      | some m => PyStr.strip (String.mk (body.take m))

/-- Outcome of the `import radon` attempt inside `calculate_complexity_score`:
either radon is unavailable (`ImportError` branch) or it returns the
per-block cyclomatic complexities and the raw line-of-code count for the
cleaned source.  This is the external collaborator boundary. -/
inductive RadonOutcome where
  | unavailable
  | metrics (blockComplexities : List Int) (loc : Int)

/-- The cleaned code both branches of `calculate_complexity_score` work on:
`extract_code_from_response(code)`, falling back to `code` when empty. -/
def cleanCodeOf (code : String) : String :=
  let clean := extract_code_from_response code
  if clean = "" then code else clean

/-- `calculate_complexity_score` of `solution/05_evaluator_optimiser.py`.
Radon branch: average block complexity (`sum / max(len, 1)`, exact rational
in place of the Python float) and LOC bucketed to 10/8/6/4/2.  `ImportError`
fallback: line count of the cleaned code bucketed to 10/8/6/4. -/
def calculate_complexity_score (radon : RadonOutcome) (code : String) : Int :=
  match radon with
  | .metrics blocks loc =>
    let avg : ℚ := ((blocks.map (Int.cast)).sum) / (max blocks.length 1 : ℚ)
    if avg ≤ 2 ∧ loc ≤ 20 then 10
    else if avg ≤ 4 ∧ loc ≤ 50 then 8
    else if avg ≤ 6 ∧ loc ≤ 100 then 6
    else if avg ≤ 8 then 4
    else 2
  | .unavailable =>
    let lines := (PyStr.pyStrip (cleanCodeOf code).toList).count '\n' + 1
    if lines ≤ 20 then 10
    else if lines ≤ 50 then 8
    else if lines ≤ 100 then 6
    else 4

/-- Structured output of the evaluator LLM call, `class Evaluation` in
`solution/05_evaluator_optimiser.py` (`evaluator_agent` ignores the
response's own `complexity_score`, recomputing it with
`calculate_complexity_score`). -/
structure Evaluation where
  quality_score : Int
  complexity_score : Int
  feedback : String
  should_continue : Bool
deriving DecidableEq, Repr

/-- One record appended to `state["history"]` by `evaluator_agent`:
`{"iteration": ..., "quality_score": ..., "complexity_score": ...,
"combined_score": (quality + complexity) / 2}` (the Python float division is
exact on half-integers, modelled as `ℚ`). -/
structure HistRec where
  iteration : Nat
  quality_score : Int
  complexity_score : Int
  combined_score : ℚ
deriving DecidableEq, Repr

/-- The `current_evaluation` dict with possibly-absent keys, as read by
`should_continue_optimisation` via `.get`. -/
structure EvalDict where
  quality_score : Option Int
  complexity_score : Option Int
  feedback : Option String
  should_continue : Option Bool
deriving DecidableEq, Repr

/-- Routing outcome of the conditional edge after the evaluator node. -/
inductive Route where
  | optimise
  | finalise
deriving DecidableEq, Repr

/-- `should_continue_optimisation` of `solution/05_evaluator_optimiser.py`:
finalise when `iteration_count >= 3`, when `plateau_count >= 2`, when
`not current_eval.get("should_continue", True)`, or when
`quality_score >= 8 and complexity_score >= 7` (with `.get(..., 0)`
defaults); otherwise optimise. -/
def should_continue_optimisation (current_evaluation : Option EvalDict)
    (iteration_count plateau_count : Nat) : Route :=
  let ce := current_evaluation.getD ⟨none, none, none, none⟩
  if 3 ≤ iteration_count then .finalise
  else if 2 ≤ plateau_count then .finalise
  else if !(ce.should_continue.getD true) then .finalise
  else if 8 ≤ ce.quality_score.getD 0 ∧ 7 ≤ ce.complexity_score.getD 0 then .finalise
  else .optimise

/-- Python `max(list)` on the combined scores (list is non-empty whenever
the source calls it). -/
def listMax : List ℚ → ℚ
  | [] => 0
  | x :: xs => xs.foldl max x

/-- Python `min(list)` on the combined scores (list is non-empty whenever
the source calls it). -/
def listMin : List ℚ → ℚ
  | [] => 0
  | x :: xs => xs.foldl min x

/-- Plateau update in `evaluator_agent`: `plateau_count` becomes the previous
value plus one when the last three combined scores span at most 0.5, and 0
otherwise (the local variable is initialised to 0 each call). -/
def plateauUpdate (hist : List HistRec) (prevPlateau : Nat) : Nat :=
  let recent := (hist.drop (hist.length - 3)).map (·.combined_score)
  if 3 ≤ hist.length ∧ listMax recent - listMin recent ≤ 1/2 then prevPlateau + 1
  else 0

/-- `"performance" in response.feedback.lower()` in `evaluator_agent`. -/
def containsPerformance (feedback : String) : Bool :=
  PyStr.containsSub "performance".toList (feedback.toList.map Char.toLower)

/-- A completed run of the `solution/05` workflow.  `snapshots` records the
`(iteration_count, history)` pair observed at each point immediately after an
evaluator pass, in order; `history` and `iterationCount` are the final
values; `fuelOut` marks fuel exhaustion (never reached from `run`). -/
structure RunResult where
  snapshots : List (Nat × List HistRec)
  history : List HistRec
  iterationCount : Nat
  finalCode : String
  fuelOut : Bool
deriving Repr

/-- The `evaluator → (optimiser → evaluator)*` cycle of the compiled graph in
`solution/05_evaluator_optimiser.py`.  `evalFn` is the evaluator LLM call,
`radonEnv` the radon outcome for a given code string, and `optFn` the
optimiser LLM call (`performance_focused` flag selects the prompt; the call
increments `iteration_count`). -/
def loop (evalFn : String → Evaluation) (radonEnv : String → RadonOutcome)
    (optFn : Bool → String → String → String) :
    Nat → String → Nat → List HistRec → Nat → RunResult
  | 0, code, iter, hist, _ => ⟨[], hist, iter, code, true⟩
  | fuel + 1, code, iter, hist, plateau =>
    let resp := evalFn code
    let cscore := calculate_complexity_score (radonEnv code) code
    let record : HistRec :=
      ⟨iter, resp.quality_score, cscore, ((resp.quality_score + cscore : Int) : ℚ) / 2⟩
    let hist' := hist ++ [record]
    let plateau' := plateauUpdate hist' plateau
    match should_continue_optimisation
        (some ⟨some resp.quality_score, some cscore, some resp.feedback,
               some resp.should_continue⟩) iter plateau' with
    | .finalise => ⟨[(iter, hist')], hist', iter, code, false⟩
    | .optimise =>
      let code' := optFn (containsPerformance resp.feedback) code resp.feedback
      let r := loop evalFn radonEnv optFn fuel code' (iter + 1) hist' plateau'
      { r with snapshots := (iter, hist') :: r.snapshots }

/-- Full run of the `solution/05` workflow starting from the generator's
initial code `gen0` (`iteration_count = 0`, empty history, `plateau_count`
absent, read as 0). -/
def run (evalFn : String → Evaluation) (radonEnv : String → RadonOutcome)
    (optFn : Bool → String → String → String) (gen0 : String) : RunResult :=
  loop evalFn radonEnv optFn 4 gen0 0 [] 0

end S05

namespace Sol07

/-- The slice of `ProductionState` in
`solutions/07_production_ready_solution.py` read by the two routers
`should_retry` and `check_approval`; all three keys are read through
`state.get` with defaults, so they are `Option`-valued. -/
structure ProductionState where
  approved : Option Bool
  retry_count : Option Nat
  failure_streak : Option Nat
deriving DecidableEq, Repr

/-- Routing outcome of the conditional edge after the approval node
(`Literal["approved", "retry", "manual"]`). -/
inductive ApprovalRoute where
  | approved
  | retry
  | manual
deriving DecidableEq, Repr

/-- Routing outcome of the conditional edge after the coder node
(`Literal["retry", "reviewer"]`). -/
inductive RetryRoute where
  | retry
  | reviewer
deriving DecidableEq, Repr

/-- `should_retry` of `solutions/07_production_ready_solution.py`: retry only
when `0 < retry_count < 3` and `failure_streak < 2`; otherwise proceed to the
reviewer. -/
def should_retry (s : ProductionState) : RetryRoute :=
  let retry_count := s.retry_count.getD 0
  if 0 < retry_count ∧ retry_count < 3 ∧ s.failure_streak.getD 0 < 2 then .retry
  else .reviewer

/-- `check_approval` of `solutions/07_production_ready_solution.py`: approved
states finalise; otherwise a failure streak of 2 or more trips the circuit
breaker to manual review, exhausted retries (`retry_count >= 3`) also go to
manual review, and anything else retries. -/
def check_approval (s : ProductionState) : ApprovalRoute :=
  if s.approved.getD false then .approved
  else if 2 ≤ s.failure_streak.getD 0 then .manual
  else if 3 ≤ s.retry_count.getD 0 then .manual
  else .retry

end Sol07

namespace P07

/-- The slice of `ProductionState` in `patterns/07_production_ready.py` read
by the routers (`state.get("approved", False)`, `state.get("retry_count", 0)`). -/
structure ProductionState where
  approved : Option Bool
  retry_count : Option Nat
deriving DecidableEq, Repr

/-- Routing outcome of the conditional edge after the approval node: the
`Literal["approved", "retry"]` type — there is no third, failure-terminal
route in this variant. -/
inductive ApprovalRoute where
  | approved
  | retry
deriving DecidableEq, Repr

/-- Routing outcome of the conditional edge after the coder node. -/
inductive RetryRoute where
  | retry
  | reviewer
deriving DecidableEq, Repr

/-- `should_retry` of `patterns/07_production_ready.py`: retry exactly when
`0 < retry_count < 3`. -/
def should_retry (s : ProductionState) : RetryRoute :=
  let retry_count := s.retry_count.getD 0
  if 0 < retry_count ∧ retry_count < 3 then .retry
  else .reviewer

/-- `check_approval` of `patterns/07_production_ready.py`: approved states
finalise; an unapproved state with `retry_count >= 3` prints "Max retries
reached - manual intervention required" but returns `"approved"` (the
source's comment: force completion after max retries), routing to the same
`finalise` node as a genuine approval; anything else retries. -/
def check_approval (s : ProductionState) : ApprovalRoute :=
  if s.approved.getD false then .approved
  else if 3 ≤ s.retry_count.getD 0 then .approved
  else .retry

/-- `handle_errors` of `patterns/07_production_ready.py`: increments
`retry_count` (`state.get("retry_count", 0) + 1`). -/
def handle_errors (retry_count : Option Nat) : Nat :=
  retry_count.getD 0 + 1

/-- `finalise_agent` of `patterns/07_production_ready.py`: prepends the
production header to `state["code"]` to form `final_code`. -/
def finalise_agent (code : String) : String :=
  "# PRODUCTION-READY CODE\n# Quality checks: Passed\n\n" ++ code

end P07

namespace P06

/-- Structured output of the approval LLM call, `class ApprovalDecision` in
`patterns/06_production_ready.py`. -/
structure ApprovalDecision where
  approved : Bool
  feedback : String
deriving DecidableEq, Repr

/-- `ProductionState` of `patterns/06_production_ready.py`; every key is
written by some node and read with `.get` defaults (or assumed present), so
all fields are `Option`-valued with `none` for an absent key. -/
structure St where
  input : Option String
  code : Option String
  review : Option String
  approved : Option Bool
  retry_count : Option Nat
  final_code : Option String
deriving DecidableEq, Repr

/-- The nodes of the compiled graph, plus `done` for `END`. -/
inductive Node where
  | coder
  | reviewer
  | approval
  | handleErrors
  | finalise
  | done
deriving DecidableEq, Repr

/-- Routing outcome of the conditional edge after the coder node. -/
inductive RetryRoute where
  | retry
  | reviewer
deriving DecidableEq, Repr

/-- Routing outcome of the conditional edge after the approval node. -/
inductive ApprovalRoute where
  | approved
  | retry
deriving DecidableEq, Repr

/-- The three LLM calls of `patterns/06_production_ready.py`, as external
collaborators.  `Except Unit α` models a call that either returns a response
or raises (caught by the surrounding `try`/`except`). -/
structure Behaviour where
  coderResp : St → Except Unit String
  reviewerResp : St → Except Unit String
  approvalResp : St → Except Unit ApprovalDecision

/-- `coder_agent` of `patterns/06_production_ready.py`: on success, set
`code` and reset `retry_count` to 0; on exception, increment `retry_count`. -/
def coder_agent (b : Behaviour) (s : St) : St :=
  match b.coderResp s with
  | .ok content => { s with code := some content, retry_count := some 0 }
  | .error _ => { s with retry_count := some (s.retry_count.getD 0 + 1) }

/-- `reviewer_agent` of `patterns/06_production_ready.py`: on success, set
`review`; on exception, increment `retry_count`. -/
def reviewer_agent (b : Behaviour) (s : St) : St :=
  match b.reviewerResp s with
  | .ok content => { s with review := some content }
  | .error _ => { s with retry_count := some (s.retry_count.getD 0 + 1) }

/-- `approval_agent` of `patterns/06_production_ready.py`: on success, set
`approved` to the decision (an approval rejection does NOT touch
`retry_count`); on exception, set `approved := False` and increment
`retry_count`. -/
def approval_agent (b : Behaviour) (s : St) : St :=
  match b.approvalResp s with
  | .ok decision => { s with approved := some decision.approved }
  | .error _ =>
    { s with approved := some false, retry_count := some (s.retry_count.getD 0 + 1) }

/-- `handle_errors` of `patterns/06_production_ready.py`: reads
`retry_count` and writes the same value back — it does NOT increment. -/
def handle_errors (s : St) : St :=
  { s with retry_count := some (s.retry_count.getD 0) }

/-- `finalise_agent` of `patterns/06_production_ready.py`. -/
def finalise_agent (s : St) : St :=
  let production_header := "# PRODUCTION-READY CODE\n# Quality checks: Passed\n\n"
  { s with final_code := some (production_header ++ s.code.getD "") }

/-- `should_retry` of `patterns/06_production_ready.py`. -/
def should_retry (s : St) : RetryRoute :=
  let retry_count := s.retry_count.getD 0
  if 0 < retry_count ∧ retry_count < 3 then .retry
  else .reviewer

/-- `check_approval` of `patterns/06_production_ready.py`: approved states
finalise, `retry_count >= 3` forces the `"approved"` route, anything else
retries. -/
def check_approval (s : St) : ApprovalRoute :=
  if s.approved.getD false then .approved
  else if 3 ≤ s.retry_count.getD 0 then .approved
  else .retry

/-- One step of the compiled graph of `patterns/06_production_ready.py`: run
the current node's agent on the state, then follow the (conditional) edge
evaluated on the updated state.  `done` is absorbing. -/
def step (b : Behaviour) : Node × St → Node × St
  | (.coder, s) =>
    let s' := coder_agent b s
    ((match should_retry s' with
      | .retry => .handleErrors
      | .reviewer => .reviewer), s')
  | (.reviewer, s) => (.approval, reviewer_agent b s)
  | (.approval, s) =>
    let s' := approval_agent b s
    ((match check_approval s' with
      | .approved => .finalise
      | .retry => .handleErrors), s')
  | (.handleErrors, s) => (.coder, handle_errors s)
  | (.finalise, s) => (.done, finalise_agent s)
  | (.done, s) => (.done, s)

end P06

namespace P06

/-- Invariant of the `patterns/06` graph under exception-free, always-reject
behaviour: control is at the coder node, or at one of the three other loop
nodes with a `retry_count` of 0 (reset by the last successful coder call and
passed through unchanged since). -/
def Inv (x : Node × St) : Prop :=
  x.1 = Node.coder ∨
    ((x.1 = Node.reviewer ∨ x.1 = Node.approval ∨ x.1 = Node.handleErrors) ∧
      x.2.retry_count = some 0)

end P06

/-! ## Theorems -/

/-- Helper: the `patterns/05` gate only chooses `optimise` below the
iteration cap. -/
theorem P05_gate_optimise_lt (ce : Option P05.EvalDict) (iter : Nat)
    (h : P05.should_continue_optimisation ce iter = P05.Route.optimise) :
    iter < 3 := by
  by_contra hge
  simp only [P05.should_continue_optimisation] at h
  rw [if_pos (show 3 ≤ iter by omega)] at h
  exact P05.Route.noConfusion h

/-- Helper: the iteration count of any `patterns/05` loop suffix never
exceeds `max iter 3`. -/
theorem P05_loop_iterationCount_le (evalFn : String → P05.Evaluation)
    (optFn : String → String → String) :
    ∀ (fuel : Nat) (code : String) (iter : Nat)
      (hist : List (Nat × P05.Evaluation)),
      (P05.loop evalFn optFn fuel code iter hist).iterationCount ≤ max iter 3 := by
  intro fuel
  induction fuel with
  | zero =>
    intro code iter hist
    simp only [P05.loop]
    omega
  | succ n ih =>
    intro code iter hist
    simp only [P05.loop]
    split
    · simp only []
      omega
    · next heq =>
      have hlt := P05_gate_optimise_lt _ _ heq
      have := ih (optFn code (evalFn code).feedback) (iter + 1)
        (hist ++ [(iter, evalFn code)])
      omega

/-- C1: in the `patterns/05` refinement loop (with the evaluation keys
present) the gate chooses `optimise` exactly when the iteration count is
below the cap 3, the evaluator has not signalled stop, and the score is
strictly below the threshold 8 — so a score equal to the threshold
finalises (`>=`, not `>`), and `should_continue = false` finalises
regardless of the score; and the `simple/02` quality gate finishes exactly
when the score meets its threshold 7 (`>=`). -/
theorem C1_continue_decision :
    (∀ (score : Int) (fb : String) (sc : Bool) (iter : Nat),
        P05.should_continue_optimisation (some ⟨some score, some fb, some sc⟩) iter
            = P05.Route.optimise ↔ iter < 3 ∧ sc = true ∧ score < 8) ∧
    (∀ score : Int,
        S02.quality_gate score = S02.GateRoute.done ↔ 7 ≤ score) := by
  constructor
  · intro score fb sc iter
    simp only [P05.should_continue_optimisation, Option.getD_some]
    split_ifs with h1 h2 h3 <;> simp_all
  · intro score
    simp only [S02.quality_gate]
    split_ifs with h <;> simp_all

/-- C2: the iteration cap of the `patterns/05` loop is absolute — for every
evaluator and optimiser behaviour the run performs at most 3 optimiser
passes; with an evaluator stub that always returns score 0 and
`should_continue = true`, the run performs exactly 3 (= `max_iterations`)
optimiser passes, records 3 + 1 evaluator passes, and terminates through the
iteration-cap branch; and the `patterns_simple/05` gate finalises whenever
its iteration count has reached its cap 2, regardless of score. -/
theorem C2_iteration_cap_absolute :
    (∀ (evalFn : String → P05.Evaluation) (optFn : String → String → String)
        (gen0 : String), (P05.run evalFn optFn gen0).iterationCount ≤ 3) ∧
    (∀ (fb : String) (optFn : String → String → String) (gen0 : String),
        (P05.run (fun _ => ⟨0, fb, true⟩) optFn gen0).iterationCount = 3 ∧
        (P05.run (fun _ => ⟨0, fb, true⟩) optFn gen0).history.length = 3 + 1 ∧
        (P05.run (fun _ => ⟨0, fb, true⟩) optFn gen0).reason
            = P05.Reason.maxIterationsReached) ∧
    (∀ (extra : Nat) (score : Option Int),
        PS05.should_continue (2 + extra) score = PS05.Route.done) := by
  refine ⟨fun evalFn optFn gen0 => ?_,
          fun fb optFn gen0 => ⟨rfl, rfl, rfl⟩,
          fun extra score => ?_⟩
  · have h := P05_loop_iterationCount_le evalFn optFn 4 gen0 0 []
    simpa [P05.run] using h
  · simp [PS05.should_continue]

/-- C3: whenever the evaluator LLM response cannot be parsed as an integer
(`int(...)` raises), the `patterns_simple/05` and `simple/02` evaluators
substitute the neutral default score 5 instead of propagating the error, and
the `simple/02` quality gate then routes the run onward to another
improvement round rather than terminating abnormally. -/
theorem C3_neutral_fallback (content : String)
    (h : PyStr.pyInt (PyStr.strip content) = none) :
    PS05.evaluator content = 5 ∧ S02.evaluator content = 5 ∧
    S02.quality_gate (S02.evaluator content) = S02.GateRoute.improve := by
  have h5 : PS05.evaluator content = 5 := by
    simp [PS05.evaluator, h]
  have h5' : S02.evaluator content = 5 := by
    simp [S02.evaluator, h]
  refine ⟨h5, h5', ?_⟩
  rw [h5']
  decide

/-- Witness for C3 at a concrete unparsable evaluator response. -/
theorem C3_neutral_fallback_witness :
    PyStr.pyInt (PyStr.strip "Good code overall") = none ∧
    (PS05.evaluator "Good code overall" = 5 ∧
     S02.evaluator "Good code overall" = 5 ∧
     S02.quality_gate (S02.evaluator "Good code overall") = S02.GateRoute.improve) :=
  ⟨by decide, C3_neutral_fallback "Good code overall" (by decide)⟩

/-- C4 counterexample: in `solution/05` the completion decision is NOT a
function of the minimum of the criteria scores.  The evaluations
(quality 8, complexity 7) and (quality 7, complexity 8) have the same
minimum 7, yet the gate finalises on the first and continues on the second,
so no min-based aggregate can reproduce the source's threshold comparison. -/
theorem C4_counterexample :
    S05.should_continue_optimisation (some ⟨some 8, some 7, some "", some true⟩) 0 0
        = S05.Route.finalise ∧
    S05.should_continue_optimisation (some ⟨some 7, some 8, some "", some true⟩) 0 0
        = S05.Route.optimise ∧
    min (8 : Int) 7 = min (7 : Int) 8 ∧
    ¬ ∃ f : Int → S05.Route, ∀ q c : Int,
        S05.should_continue_optimisation (some ⟨some q, some c, some "", some true⟩) 0 0
          = f (min q c) := by
  refine ⟨by decide, by decide, by decide, ?_⟩
  rintro ⟨f, hf⟩
  have h1 := hf 8 7
  have h2 := hf 7 8
  rw [show min (8 : Int) 7 = 7 by decide] at h1
  rw [show min (7 : Int) 8 = 7 by decide] at h2
  rw [show S05.should_continue_optimisation
      (some ⟨some 8, some 7, some "", some true⟩) 0 0 = S05.Route.finalise
      by decide] at h1
  rw [show S05.should_continue_optimisation
      (some ⟨some 7, some 8, some "", some true⟩) 0 0 = S05.Route.optimise
      by decide] at h2
  exact S05.Route.noConfusion (h2.trans h1.symm)

/-- C4 amended: the `solution/05` completion gate is conjunctive with
distinct per-criterion thresholds — below the iteration cap and plateau
limit, with the evaluator not signalling stop, it finalises exactly when
`quality_score >= 8` AND `complexity_score >= 7`; the weakest criterion does
not gate completion through a single min-based aggregate. -/
theorem C4_conjunctive_gate (q c : Int) (fb : String) (iter plateau : Nat)
    (hiter : iter < 3) (hplateau : plateau < 2) :
    S05.should_continue_optimisation (some ⟨some q, some c, some fb, some true⟩)
        iter plateau = S05.Route.finalise ↔ 8 ≤ q ∧ 7 ≤ c := by
  simp only [S05.should_continue_optimisation, Option.getD_some]
  rw [if_neg (by omega), if_neg (by omega)]
  simp only [Bool.not_true, Bool.false_eq_true, if_false]
  split_ifs with h <;> simp_all

/-- Witness for C4's amended theorem at quality 9, complexity 7, iteration 0. -/
theorem C4_conjunctive_gate_witness :
    (0 : Nat) < 3 ∧ (0 : Nat) < 2 ∧
    (S05.should_continue_optimisation (some ⟨some 9, some 7, some "", some true⟩) 0 0
        = S05.Route.finalise ↔ 8 ≤ (9 : Int) ∧ 7 ≤ (7 : Int)) :=
  ⟨by decide, by decide, C4_conjunctive_gate 9 7 "" 0 0 (by decide) (by decide)⟩

/-- C6: in `solutions/07`, a failure streak of 2 on an unapproved state trips
the circuit breaker: `check_approval` routes to manual intervention, and
`should_retry` never chooses the retry branch from such a state. -/
theorem C6_circuit_breaker (s : Sol07.ProductionState)
    (hnot : s.approved.getD false = false)
    (hstreak : 2 ≤ s.failure_streak.getD 0) :
    Sol07.check_approval s = Sol07.ApprovalRoute.manual ∧
    Sol07.should_retry s = Sol07.RetryRoute.reviewer := by
  constructor
  · simp only [Sol07.check_approval, hnot]
    rw [if_neg (by simp), if_pos hstreak]
  · simp only [Sol07.should_retry]
    rw [if_neg (by omega)]

/-- Witness for C6 at `approved = False`, `retry_count = 1`,
`failure_streak = 2`. -/
theorem C6_circuit_breaker_witness :
    (Sol07.ProductionState.mk (some false) (some 1) (some 2)).approved.getD false
        = false ∧
    2 ≤ (Sol07.ProductionState.mk (some false) (some 1) (some 2)).failure_streak.getD 0 ∧
    (Sol07.check_approval ⟨some false, some 1, some 2⟩ = Sol07.ApprovalRoute.manual ∧
     Sol07.should_retry ⟨some false, some 1, some 2⟩ = Sol07.RetryRoute.reviewer) :=
  ⟨by decide, by decide, C6_circuit_breaker ⟨some false, some 1, some 2⟩ rfl (by decide)⟩

/-- C7 counterexample: in `patterns/07`, an unapproved state with
`retry_count = 3` (retry bound exhausted) is routed by `check_approval` to
the `"approved"` branch — the same `finalise` node as a genuine approval,
which stamps the code with the production-passed header — not to a distinct
terminal `Failed` result (the router's return type has no failure route). -/
theorem C7_counterexample :
    P07.check_approval ⟨some false, some 3⟩ = P07.ApprovalRoute.approved ∧
    P07.finalise_agent "def f(): pass"
        = "# PRODUCTION-READY CODE\n# Quality checks: Passed\n\ndef f(): pass" :=
  ⟨by decide, by decide⟩

/-- C7 amended: `patterns/07` retries generation/approval failures while
`0 < retry_count < 3` (bound 3, counted in `retry_count`, which
`handle_errors` increments), but once the bound is exhausted an unapproved
run is forced through the `"approved"` route into the normal `finalise`
path, presented like a success, rather than ending in a distinct `Failed`
result. -/
theorem C7_forced_completion (s : P07.ProductionState)
    (hnot : s.approved.getD false = false)
    (hmax : 3 ≤ s.retry_count.getD 0) :
    P07.check_approval s = P07.ApprovalRoute.approved ∧
    (∀ t : P07.ProductionState,
        P07.should_retry t = P07.RetryRoute.retry ↔
          0 < t.retry_count.getD 0 ∧ t.retry_count.getD 0 < 3) ∧
    (∀ rc : Nat, P07.handle_errors (some rc) = rc + 1) := by
  refine ⟨?_, fun t => ?_, fun rc => rfl⟩
  · simp only [P07.check_approval, hnot]
    rw [if_neg (by simp), if_pos hmax]
  · simp only [P07.should_retry]
    split_ifs with h <;> simp_all

/-- Witness for C7's amended theorem at `approved = False`, `retry_count = 3`. -/
theorem C7_forced_completion_witness :
    (P07.ProductionState.mk (some false) (some 3)).approved.getD false = false ∧
    3 ≤ (P07.ProductionState.mk (some false) (some 3)).retry_count.getD 0 ∧
    P07.check_approval ⟨some false, some 3⟩ = P07.ApprovalRoute.approved :=
  ⟨by decide, by decide, (C7_forced_completion ⟨some false, some 3⟩ rfl (by decide)).1⟩

/-- C10: `calculate_complexity_score` of `solution/05` only ever returns one
of the even bucket values 2, 4, 6, 8, 10 — in the radon-metrics branch and
in the line-count fallback branch alike — so the derived complexity
criterion always lies within the documented 1-10 score range. -/
theorem C10_complexity_score_range (radon : S05.RadonOutcome) (code : String) :
    S05.calculate_complexity_score radon code = 2 ∨
    S05.calculate_complexity_score radon code = 4 ∨
    S05.calculate_complexity_score radon code = 6 ∨
    S05.calculate_complexity_score radon code = 8 ∨
    S05.calculate_complexity_score radon code = 10 := by
  cases radon with
  | metrics blocks loc =>
    simp only [S05.calculate_complexity_score]
    split_ifs <;> simp
  | unavailable =>
    simp only [S05.calculate_complexity_score]
    split_ifs <;> simp

/-- C5: fast track in `patterns/05` — if the evaluation of the initial
(iteration-0) code already scores at or above the threshold 8, the run
terminates with iteration count 0 (no optimiser pass), a single-record
history, and the iteration-0 code unchanged as the final artifact. -/
theorem C5_fast_track (evalFn : String → P05.Evaluation)
    (optFn : String → String → String) (gen0 : String)
    (h : 8 ≤ (evalFn gen0).score) :
    (P05.run evalFn optFn gen0).iterationCount = 0 ∧
    (P05.run evalFn optFn gen0).history = [(0, evalFn gen0)] ∧
    (P05.run evalFn optFn gen0).finalCode = gen0 := by
  have hfin : P05.should_continue_optimisation
      (some ⟨some (evalFn gen0).score, some (evalFn gen0).feedback,
             some (evalFn gen0).should_continue⟩) 0 = P05.Route.finalise := by
    simp only [P05.should_continue_optimisation, Option.getD_some]
    cases hsc : (evalFn gen0).should_continue <;> simp [h]
  simp only [P05.run, P05.loop]
  rw [hfin]
  simp

/-- Witness for C5 with a stub evaluator scoring 9 on the initial code. -/
theorem C5_fast_track_witness :
    8 ≤ ((fun _ : String => P05.Evaluation.mk 9 "ok" true) "task").score ∧
    ((P05.run (fun _ => ⟨9, "ok", true⟩) (fun c _ => c) "task").iterationCount = 0 ∧
     (P05.run (fun _ => ⟨9, "ok", true⟩) (fun c _ => c) "task").history
        = [(0, (fun _ : String => P05.Evaluation.mk 9 "ok" true) "task")] ∧
     (P05.run (fun _ => ⟨9, "ok", true⟩) (fun c _ => c) "task").finalCode = "task") :=
  ⟨by decide, C5_fast_track (fun _ => ⟨9, "ok", true⟩) (fun c _ => c) "task" (by decide)⟩

/-- Helper: the `solution/05` gate only chooses `optimise` below the
iteration cap. -/
theorem S05_gate_optimise_lt (ce : Option S05.EvalDict) (iter plateau : Nat)
    (h : S05.should_continue_optimisation ce iter plateau = S05.Route.optimise) :
    iter < 3 := by
  by_contra hge
  simp only [S05.should_continue_optimisation] at h
  rw [if_pos (show 3 ≤ iter by omega)] at h
  exact S05.Route.noConfusion h

/-- Helper: the fuel supplied by `S05.run` is never exhausted (the gate
finalises once the iteration count reaches 3). -/
theorem S05_loop_fuel (evalFn : String → S05.Evaluation)
    (radonEnv : String → S05.RadonOutcome)
    (optFn : Bool → String → String → String) :
    ∀ (fuel iter : Nat), 4 ≤ fuel + iter → 1 ≤ fuel →
    ∀ (code : String) (hist : List S05.HistRec) (plateau : Nat),
      (S05.loop evalFn radonEnv optFn fuel code iter hist plateau).fuelOut = false := by
  intro fuel
  induction fuel with
  | zero =>
    intro iter _ hpos
    exact absurd hpos (by omega)
  | succ n ih =>
    intro iter hsum _ code hist plateau
    simp only [S05.loop]
    split
    · rfl
    · next heq =>
      have hlt := S05_gate_optimise_lt _ _ _ heq
      exact ih (iter + 1) (by omega) (by omega) _ _ _

/-- Helper: invariant of the `solution/05` loop — the history only grows by
appending, and at every post-evaluation point it holds exactly
`iteration_count + 1` records indexed `0 .. iteration_count`. -/
theorem S05_loop_invariant (evalFn : String → S05.Evaluation)
    (radonEnv : String → S05.RadonOutcome)
    (optFn : Bool → String → String → String) :
    ∀ (fuel : Nat) (code : String) (iter : Nat) (hist : List S05.HistRec)
      (plateau : Nat),
      hist.length = iter →
      hist.map (·.iteration) = List.range iter →
      (∃ ext, (S05.loop evalFn radonEnv optFn fuel code iter hist plateau).history
          = hist ++ ext) ∧
      ((S05.loop evalFn radonEnv optFn fuel code iter hist plateau).fuelOut = false →
        (S05.loop evalFn radonEnv optFn fuel code iter hist plateau).history.length
            = (S05.loop evalFn radonEnv optFn fuel code iter hist plateau).iterationCount + 1 ∧
        (S05.loop evalFn radonEnv optFn fuel code iter hist plateau).history.map (·.iteration)
            = List.range
              ((S05.loop evalFn radonEnv optFn fuel code iter hist plateau).iterationCount + 1)) ∧
      (∀ p ∈ (S05.loop evalFn radonEnv optFn fuel code iter hist plateau).snapshots,
        p.2.length = p.1 + 1 ∧
        p.2.map (·.iteration) = List.range (p.1 + 1) ∧
        p.2 = (S05.loop evalFn radonEnv optFn fuel code iter hist plateau).history.take
          (p.1 + 1)) := by
  intro fuel
  induction fuel with
  | zero =>
    intro code iter hist plateau h1 h2
    refine ⟨⟨[], by simp [S05.loop]⟩, ?_, ?_⟩
    · intro hfo
      simp [S05.loop] at hfo
    · intro p hp
      simp [S05.loop] at hp
  | succ n ih =>
    intro code iter hist plateau h1 h2
    simp only [S05.loop]
    split
    · next heq =>
      refine ⟨⟨_, rfl⟩, ?_, ?_⟩
      · intro _
        constructor
        · simp [h1]
        · simp [h2, List.range_succ]
      · intro p hp
        simp only [List.mem_singleton] at hp
        subst hp
        refine ⟨by simp [h1], by simp [h2, List.range_succ], ?_⟩
        exact (List.take_of_length_le (by simp [h1])).symm
    · next heq =>
      generalize hr : (S05.HistRec.mk iter (evalFn code).quality_score
          (S05.calculate_complexity_score (radonEnv code) code)
          ((((evalFn code).quality_score +
            S05.calculate_complexity_score (radonEnv code) code : Int) : ℚ) / 2)) = record
      have hri : record.iteration = iter := by rw [← hr]
      obtain ⟨⟨ext, hext⟩, hfin, hsnap⟩ :=
        ih (optFn (S05.containsPerformance (evalFn code).feedback) code
            (evalFn code).feedback)
          (iter + 1) (hist ++ [record])
          (S05.plateauUpdate (hist ++ [record]) plateau)
          (by simp [h1])
          (by simp [h2, hri, List.range_succ])
      refine ⟨⟨record :: ext, by simp [hext]⟩, hfin, ?_⟩
      intro p hp
      simp only [List.mem_cons] at hp
      rcases hp with hp | hp
      · subst hp
        refine ⟨by simp [h1], by simp [h2, hri, List.range_succ], ?_⟩
        rw [hext]
        exact (List.take_left' (by simp [h1])).symm
      · exact hsnap p hp

/-- C8: in every `solution/05` run, at every point immediately after an
evaluator pass the history holds exactly `iteration_count + 1` records whose
iteration indices are exactly `0 .. iteration_count` (no gaps, no
duplicates), each such snapshot is an unmodified prefix of the final history
(append-only growth), and the completed run satisfies
`len(history) = iteration_count + 1`. -/
theorem C8_history_invariant (evalFn : String → S05.Evaluation)
    (radonEnv : String → S05.RadonOutcome)
    (optFn : Bool → String → String → String) (gen0 : String) :
    (S05.run evalFn radonEnv optFn gen0).fuelOut = false ∧
    (S05.run evalFn radonEnv optFn gen0).history.length
        = (S05.run evalFn radonEnv optFn gen0).iterationCount + 1 ∧
    (S05.run evalFn radonEnv optFn gen0).history.map (·.iteration)
        = List.range ((S05.run evalFn radonEnv optFn gen0).iterationCount + 1) ∧
    ∀ p ∈ (S05.run evalFn radonEnv optFn gen0).snapshots,
      p.2.length = p.1 + 1 ∧
      p.2.map (·.iteration) = List.range (p.1 + 1) ∧
      p.2 = (S05.run evalFn radonEnv optFn gen0).history.take (p.1 + 1) := by
  have hfuel := S05_loop_fuel evalFn radonEnv optFn 4 0 (by omega) (by omega) gen0 [] 0
  obtain ⟨_, hfin, hsnap⟩ :=
    S05_loop_invariant evalFn radonEnv optFn 4 gen0 0 [] 0 rfl rfl
  obtain ⟨hlen, hmap⟩ := hfin hfuel
  exact ⟨hfuel, hlen, hmap, hsnap⟩

/-- Helper: one step of the exception-free, always-reject `patterns/06`
workflow preserves the loop invariant and keeps `retry_count` at 0. -/
theorem P06_step_preserves (b : P06.Behaviour)
    (hc : ∀ s, ∃ v, b.coderResp s = Except.ok v)
    (hr : ∀ s, ∃ v, b.reviewerResp s = Except.ok v)
    (ha : ∀ s, ∃ d, b.approvalResp s = Except.ok d ∧ d.approved = false) :
    ∀ x, P06.Inv x →
      P06.Inv (P06.step b x) ∧ (P06.step b x).2.retry_count = some 0 := by
  rintro ⟨node, s⟩ hinv
  simp only [P06.Inv] at hinv
  cases node with
  | coder =>
    obtain ⟨v, hv⟩ := hc s
    simp [P06.step, P06.coder_agent, hv, P06.should_retry, P06.Inv]
  | reviewer =>
    obtain ⟨v, hv⟩ := hr s
    have hrc : s.retry_count = some 0 := by
      rcases hinv with h | ⟨_, h⟩
      · simp at h
      · exact h
    simp [P06.step, P06.reviewer_agent, hv, P06.Inv, hrc]
  | approval =>
    obtain ⟨d, hd, hdf⟩ := ha s
    have hrc : s.retry_count = some 0 := by
      rcases hinv with h | ⟨_, h⟩
      · simp at h
      · exact h
    simp [P06.step, P06.approval_agent, hd, hdf, P06.check_approval, P06.Inv, hrc]
  | handleErrors =>
    have hrc : s.retry_count = some 0 := by
      rcases hinv with h | ⟨_, h⟩
      · simp at h
      · exact h
    simp [P06.step, P06.handle_errors, P06.Inv, hrc]
  | finalise =>
    rcases hinv with h | ⟨h | h | h, _⟩ <;> simp at h
  | done =>
    rcases hinv with h | ⟨h | h | h, _⟩ <;> simp at h

/-- C9: in `patterns/06`, `retry_count` is only incremented when an LLM call
raises; under any behaviour in which no call raises and the approval agent
always rejects, a successful coder call resets `retry_count` to 0 and
`handle_errors` passes it through unchanged, so `retry_count` stays 0
forever, the retry bound is never reached, and the
coder → reviewer → approval loop never reaches `finalise` or `END`. -/
theorem C9_rejection_loop_diverges (b : P06.Behaviour)
    (hc : ∀ s, ∃ v, b.coderResp s = Except.ok v)
    (hr : ∀ s, ∃ v, b.reviewerResp s = Except.ok v)
    (ha : ∀ s, ∃ d, b.approvalResp s = Except.ok d ∧ d.approved = false)
    (s0 : P06.St) :
    (∀ n, ((P06.step b)^[n] (P06.Node.coder, s0)).1 ≠ P06.Node.finalise ∧
          ((P06.step b)^[n] (P06.Node.coder, s0)).1 ≠ P06.Node.done) ∧
    (∀ n, ((P06.step b)^[n + 1] (P06.Node.coder, s0)).2.retry_count = some 0) := by
  have hinv : ∀ n, P06.Inv ((P06.step b)^[n] (P06.Node.coder, s0)) := by
    intro n
    induction n with
    | zero => exact Or.inl rfl
    | succ k ihk =>
      rw [Function.iterate_succ_apply']
      exact (P06_step_preserves b hc hr ha _ ihk).1
  constructor
  · intro n
    rcases hinv n with h | ⟨h | h | h, _⟩ <;> rw [h] <;> exact ⟨by simp, by simp⟩
  · intro n
    rw [Function.iterate_succ_apply']
    exact (P06_step_preserves b hc hr ha _ (hinv n)).2

/-- Witness for C9: a concrete exception-free, always-rejecting behaviour
started from the empty state; after 5 steps the workflow is still not
finalised and `retry_count` is 0. -/
theorem C9_rejection_loop_diverges_witness :
    (∀ s, ∃ v, (P06.Behaviour.mk (fun _ => Except.ok "code")
        (fun _ => Except.ok "review") (fun _ => Except.ok ⟨false, "no"⟩)).coderResp s
          = Except.ok v) ∧
    (∀ s, ∃ v, (P06.Behaviour.mk (fun _ => Except.ok "code")
        (fun _ => Except.ok "review") (fun _ => Except.ok ⟨false, "no"⟩)).reviewerResp s
          = Except.ok v) ∧
    (∀ s, ∃ d, (P06.Behaviour.mk (fun _ => Except.ok "code")
        (fun _ => Except.ok "review") (fun _ => Except.ok ⟨false, "no"⟩)).approvalResp s
          = Except.ok d ∧ d.approved = false) ∧
    ((P06.step (P06.Behaviour.mk (fun _ => Except.ok "code")
        (fun _ => Except.ok "review") (fun _ => Except.ok ⟨false, "no"⟩)))^[5]
          (P06.Node.coder, P06.St.mk none none none none none none)).1
        ≠ P06.Node.finalise ∧
    ((P06.step (P06.Behaviour.mk (fun _ => Except.ok "code")
        (fun _ => Except.ok "review") (fun _ => Except.ok ⟨false, "no"⟩)))^[5]
          (P06.Node.coder, P06.St.mk none none none none none none)).2.retry_count
        = some 0 :=
  ⟨fun _ => ⟨"code", rfl⟩, fun _ => ⟨"review", rfl⟩,
   fun _ => ⟨⟨false, "no"⟩, rfl, rfl⟩,
   ((C9_rejection_loop_diverges _ (fun _ => ⟨"code", rfl⟩)
      (fun _ => ⟨"review", rfl⟩) (fun _ => ⟨⟨false, "no"⟩, rfl, rfl⟩)
      (P06.St.mk none none none none none none)).1 5).1,
   (C9_rejection_loop_diverges _ (fun _ => ⟨"code", rfl⟩)
      (fun _ => ⟨"review", rfl⟩) (fun _ => ⟨⟨false, "no"⟩, rfl, rfl⟩)
      (P06.St.mk none none none none none none)).2 4⟩
